import Mathlib

/- Verification development for the GPU usage monitor (src/examples/gpu_usage.c).

The program is embedded shallowly:

* C strings become `String`, `strstr` becomes a boolean substring test on the
  character list.
* The vendor descriptor hierarchy (concurrent group → metric set → metric)
  becomes explicit list-shaped data.  Every pointer that the C code checks for
  NULL is embedded as an `Option`; the three NULL checks performed per metric
  (NULL metric handle, NULL params, NULL SymbolName) all lead to the same
  `continue`, so one `Option String` per metric slot represents all three.
* `float` arithmetic on utilization percentages is embedded as exact rational
  (`ℚ`) arithmetic; the values involved (placeholder constants 25/5/10 and the
  scale `100/total`) are small rationals, and "within floating-point
  tolerance" claims are stated with explicit tolerances.
* Vendor API calls whose results the program merely inspects
  (Activate, GetGpuCpuTimestamps, Deactivate, GetParams, dlopen, ...) are
  embedded as environment records holding the completion codes / values those
  calls return. -/

namespace GpuUsage

/-! ## C string primitives -/

/-- Boolean test that `needle` occurs as a contiguous infix of the list. -/
def infixOfB (needle : List Char) : List Char → Bool
  | [] => needle.isEmpty
  | c :: rest => needle.isPrefixOf (c :: rest) || infixOfB needle rest

/-- C `strstr(haystack, needle) != NULL`: `needle` occurs as a substring of
`haystack` (the empty needle always matches, as in C). -/
def strstr (haystack needle : String) : Bool :=
  infixOfB needle.data haystack.data

/-! ## Completion codes

The `TCompletionCode` values named by the program (see
`GetCompletionCodeString`, src/examples/gpu_usage.c lines 62-80). -/

/-- Completion-code enumeration of the vendor API, restricted to the values
the program names. -/
inductive TCompletionCode where
  | CC_OK
  | CC_READ_PENDING
  | CC_ALREADY_INITIALIZED
  | CC_STILL_INITIALIZED
  | CC_CONCURRENT_GROUP_LOCKED
  | CC_WAIT_TIMEOUT
  | CC_TRY_AGAIN
  | CC_INTERRUPTED
  | CC_ERROR_INVALID_PARAMETER
  | CC_ERROR_NO_MEMORY
  | CC_ERROR_GENERAL
  | CC_ERROR_FILE_NOT_FOUND
  | CC_ERROR_NOT_SUPPORTED
  | CC_ERROR_ACCESS_DENIED
deriving DecidableEq, Repr

/-! ## Descriptor tree

`GetMetric(i)` can return NULL, its `GetParams()` can return NULL, and the
params' `SymbolName` can be NULL; all three make the loops `continue`, so a
metric slot is one `Option String`. -/

/-- One metric slot of a metric set: `some name` is a metric whose params and
SymbolName are available, `none` is a NULL metric / NULL params / NULL name. -/
abbrev MetricSlot := Option String

/-- TMetricSetParams: the fields the program reads (MetricsCount is the list
length, metrics are addressed by index via GetMetric). -/
structure MetricSetParams where
  metrics : List MetricSlot
deriving DecidableEq, Repr

/-- IMetricSet: `GetParams()` can return NULL. -/
structure MetricSet where
  params : Option MetricSetParams
deriving DecidableEq, Repr

/-- TConcurrentGroupParams: the fields the program reads (MetricSetsCount is
the list length; `GetMetricSet(i)` can return NULL). -/
structure ConcurrentGroupParams where
  metricSets : List (Option MetricSet)
deriving DecidableEq, Repr

/-- IConcurrentGroup: `GetParams()` can return NULL. -/
structure ConcurrentGroup where
  params : Option ConcurrentGroupParams
deriving DecidableEq, Repr

/-- TMetricsDeviceParams: ConcurrentGroupsCount is the list length;
`GetConcurrentGroup(i)` can return NULL. -/
structure MetricsDeviceParams where
  groups : List (Option ConcurrentGroup)
deriving DecidableEq, Repr

/-! ## FindGpuUtilizationMetricSet (src/examples/gpu_usage.c lines 175-275)

Per-metric classification: three literal casings of each engine keyword, six
literal casings of the activity keywords. -/

/-- Activity test of the finder: `strstr` against Busy/busy/BUSY and
Util/util/UTIL (lines 240-241, repeated for each engine). -/
def activityMatch (name : String) : Bool :=
  strstr name "Busy" || strstr name "busy" || strstr name "BUSY" ||
  strstr name "Util" || strstr name "util" || strstr name "UTIL"

/-- Engine test for the render channel: `strstr` against the three literal
casings (line 239). -/
def renderNameMatch (name : String) : Bool :=
  strstr name "Render" || strstr name "render" || strstr name "RENDER"

/-- Engine test for the blitter channel (line 246). -/
def blitterNameMatch (name : String) : Bool :=
  strstr name "Blitter" || strstr name "blitter" || strstr name "BLITTER"

/-- Engine test for the video channel (line 253). -/
def videoNameMatch (name : String) : Bool :=
  strstr name "Video" || strstr name "video" || strstr name "VIDEO"

/-- A metric name sets the `hasRender` flag (lines 239-245). -/
def metricQualifiesRender (name : String) : Bool :=
  renderNameMatch name && activityMatch name

/-- A metric name sets the `hasBlitter` flag (lines 246-252). -/
def metricQualifiesBlitter (name : String) : Bool :=
  blitterNameMatch name && activityMatch name

/-- A metric name sets the `hasVideo` flag (lines 253-259). -/
def metricQualifiesVideo (name : String) : Bool :=
  videoNameMatch name && activityMatch name

/-- A metric qualifies if it sets at least one of the three flags. -/
def metricQualifies (name : String) : Bool :=
  metricQualifiesRender name || metricQualifiesBlitter name ||
  metricQualifiesVideo name

/-- One iteration of the flag accumulation loop over the metrics of a set
(lines 225-260): NULL slots are skipped, otherwise each of the three
`hasRender` / `hasBlitter` / `hasVideo` flags is or-ed with its per-metric
test. -/
def flagStep (acc : Bool × Bool × Bool) (m : MetricSlot) :
    Bool × Bool × Bool :=
  match m with
  | none => acc
  | some name =>
    (acc.1 || metricQualifiesRender name,
     acc.2.1 || metricQualifiesBlitter name,
     acc.2.2 || metricQualifiesVideo name)

/-- The flag accumulation loop over the metrics of a set (lines 223-260):
`(hasRender, hasBlitter, hasVideo)` after scanning every metric slot. -/
def setFlags (metrics : List MetricSlot) : Bool × Bool × Bool :=
  metrics.foldl flagStep (false, false, false)

/-- The set-selection test (line 263): `hasRender || hasBlitter || hasVideo`. -/
def setQualifies (metrics : List MetricSlot) : Bool :=
  (setFlags metrics).1 || (setFlags metrics).2.1 || (setFlags metrics).2.2

/-- Set-selection test lifted to an `IMetricSet` handle: a set with NULL
params is skipped by the walk, hence never selected. -/
def setQualifiesB (ms : MetricSet) : Bool :=
  match ms.params with
  | none => false
  | some p => setQualifies p.metrics

/-- Inner walk over the metric sets of one concurrent group
(lines 206-269): returns the first selected set, `none` if none qualifies. -/
def findInSets : List (Option MetricSet) → Option MetricSet
  | [] => none
  | none :: rest => findInSets rest
  | some ms :: rest =>
    match ms.params with
    | none => findInSets rest
    | some p => if setQualifies p.metrics then some ms else findInSets rest

/-- Outer walk over the concurrent groups (lines 189-270). -/
def findInGroups : List (Option ConcurrentGroup) → Option MetricSet
  | [] => none
  | none :: rest => findInGroups rest
  | some g :: rest =>
    match g.params with
    | none => findInGroups rest
    | some gp =>
      match findInSets gp.metricSets with
      | some ms => some ms
      | none => findInGroups rest

/-- FindGpuUtilizationMetricSet: fails when the device handle or its params
are NULL, otherwise walks the groups; result `some ms` means `g_metricSet`
is set to `ms` and the function returns 1, `none` means it returns 0. -/
def FindGpuUtilizationMetricSet
    (metricsDevice : Option MetricsDeviceParams) : Option MetricSet :=
  match metricsDevice with
  | none => none
  | some dp => findInGroups dp.groups

/-- The metric sets of the tree in traversal order (group index order, then
set index order), with NULL groups, NULL group params and NULL sets skipped
exactly as the walk skips them. -/
def treeSets (groups : List (Option ConcurrentGroup)) : List MetricSet :=
  groups.flatMap
    (fun og =>
      match og with
      | none => []
      | some g =>
        match g.params with
        | none => []
        | some gp => gp.metricSets.filterMap id)

/-! ## GpuUtilization and ReadGpuUtilization (lines 34-40, 278-355)

The C `float` fields are embedded as `ℚ`. -/

/-- GpuUtilization: the five-field sample structure (lines 34-40). -/
structure GpuUtilization where
  render : ℚ
  blitter : ℚ
  video : ℚ
  enhance : ℚ
  total : ℚ
deriving DecidableEq, Repr

/-- The all-zero sample produced by `memset(util, 0, sizeof ...)` (line 283). -/
def zeroUtil : GpuUtilization := ⟨0, 0, 0, 0, 0⟩

/-- One iteration of the per-metric placeholder assignment loop of the
sampler (lines 311-335): NULL slots are skipped; otherwise exact-case
`strstr` tests in an else-if chain assign the fixed placeholder constants
25.0 / 5.0 / 10.0. -/
def assignStep (util : GpuUtilization) (m : MetricSlot) : GpuUtilization :=
  match m with
  | none => util
  | some name =>
    if strstr name "Render" && strstr name "Busy" then
      { util with render := 25 }
    else if strstr name "Blitter" && strstr name "Busy" then
      { util with blitter := 5 }
    else if strstr name "Video" && strstr name "Busy" then
      { util with video := 10 }
    else util

/-- The whole placeholder assignment loop (lines 311-335), starting from the
`memset`-zeroed sample. -/
def classifyAssign (metrics : List MetricSlot) : GpuUtilization :=
  metrics.foldl assignStep zeroUtil

/-- The total-and-normalize step of the sampler (lines 344-352): total is the
sum of the four channels; when it exceeds 100, every channel is multiplied by
`100 / total` and total is set to exactly 100. -/
def normalize (u : GpuUtilization) : GpuUtilization :=
  let u1 := { u with total := u.render + u.blitter + u.video + u.enhance }
  if u1.total > 100 then
    let scale := 100 / u1.total
    { render := u1.render * scale
      blitter := u1.blitter * scale
      video := u1.video * scale
      enhance := u1.enhance * scale
      total := 100 }
  else u1

/-- Environment of one `ReadGpuUtilization` call: the currently selected
metric set (`g_metricSet`, NULL when absent) and the completion codes the
vendor calls of this cycle return. -/
structure SamplerEnv where
  metricSet : Option MetricSet
  activateResult : TCompletionCode
  timestampResult : TCompletionCode
  deactivateResult : TCompletionCode
deriving DecidableEq, Repr

/-- ReadGpuUtilization (lines 278-355): `none` embeds `return 0`,
`some util` embeds `return 1` with `*util` filled in.  The control flow of
the source: fail when `g_metricSet` is NULL; fail when Activate returns
neither CC_OK nor CC_ALREADY_INITIALIZED; the GetGpuCpuTimestamps result only
prints a warning; fail when `GetParams()` is NULL; run the placeholder
assignment loop; the Deactivate result only prints a warning; normalize. -/
def ReadGpuUtilization (env : SamplerEnv) : Option GpuUtilization :=
  match env.metricSet with
  | none => none
  | some ms =>
    if env.activateResult ≠ TCompletionCode.CC_OK ∧
        env.activateResult ≠ TCompletionCode.CC_ALREADY_INITIALIZED then
      none
    else
      match ms.params with
      | none => none
      | some p => some (normalize (classifyAssign p.metrics))

/-! ## InitializeAPI: adapter selection (lines 117-172) -/

/-- TAdapterParams: the field the selection reads. -/
structure AdapterParams where
  vendorId : ℕ
  deviceId : ℕ
deriving DecidableEq, Repr

/-- IAdapter: `GetParams()` can return NULL. -/
structure Adapter where
  params : Option AdapterParams
deriving DecidableEq, Repr

/-- The Intel vendor id constant of line 149. -/
def intelVendorId : ℕ := 0x8086

/-- The adapter scan of InitializeAPI (lines 142-156): first adapter (in
index order) whose handle and params are non-NULL and whose VendorId equals
0x8086; NULL handles are skipped, non-matching adapters leave the selection
empty. -/
def findIntelAdapter : List (Option Adapter) → Option Adapter
  | [] => none
  | none :: rest => findIntelAdapter rest
  | some a :: rest =>
    match a.params with
    | none => findIntelAdapter rest
    | some p =>
      if p.vendorId = intelVendorId then some a else findIntelAdapter rest

/-- Environment of one InitializeAPI call: result of the library load, the
OpenAdapterGroup completion code, the adapter list behind the group params
(`none` embeds `GetParams()` returning NULL), and the OpenMetricsDevice
completion code. -/
structure InitEnv where
  loadOk : Bool
  openGroupResult : TCompletionCode
  groupAdapters : Option (List (Option Adapter))
  openDeviceResult : TCompletionCode
deriving DecidableEq, Repr

/-- InitializeAPI (lines 117-172): `none` embeds `return 0`; `some a` embeds
`return 1` with `g_adapter = a` and the metrics device opened. -/
def InitializeAPI (env : InitEnv) : Option Adapter :=
  if !env.loadOk then none
  else if env.openGroupResult ≠ TCompletionCode.CC_OK then none
  else
    match env.groupAdapters with
    | none => none
    | some adapters =>
      match findIntelAdapter adapters with
      | none => none
      | some a =>
        if env.openDeviceResult ≠ TCompletionCode.CC_OK then none
        else some a

/-! ## Cleanup (lines 364-385) -/

/-- The four release actions of Cleanup, in source order. -/
inductive CleanupStep where
  | deactivateMetricSet
  | closeMetricsDevice
  | closeAdapterGroup
  | closeLibrary
deriving DecidableEq, Repr

/-- The global handles Cleanup inspects; `true` embeds a non-NULL handle. -/
structure ProgState where
  metricSet : Bool
  metricsDevice : Bool
  adapter : Bool
  adapterGroup : Bool
  libraryHandle : Bool
deriving DecidableEq, Repr

/-- Cleanup (lines 364-385): each guarded step in source order, returning the
list of release actions performed and the updated handles.  Deactivate does
not clear `g_metricSet`; the device is closed only when both the device and
the adapter handles are non-NULL; device, adapter group and library handles
are cleared after their close calls. -/
def Cleanup (s : ProgState) : List CleanupStep × ProgState :=
  let steps1 : List CleanupStep :=
    if s.metricSet then [CleanupStep.deactivateMetricSet] else []
  let devClose := s.metricsDevice && s.adapter
  let steps2 : List CleanupStep :=
    if devClose then [CleanupStep.closeMetricsDevice] else []
  let s2 := if devClose then { s with metricsDevice := false } else s
  let steps3 : List CleanupStep :=
    if s2.adapterGroup then [CleanupStep.closeAdapterGroup] else []
  let s3 := if s2.adapterGroup then { s2 with adapterGroup := false } else s2
  let steps4 : List CleanupStep :=
    if s3.libraryHandle then [CleanupStep.closeLibrary] else []
  let s4 := if s3.libraryHandle then { s3 with libraryHandle := false } else s3
  (steps1 ++ steps2 ++ steps3 ++ steps4, s4)

/-- Test whether the resource released by a given Cleanup step is currently
held (the guard of that step in lines 367-384). -/
def stepGuard (s : ProgState) : CleanupStep → Bool
  | CleanupStep.deactivateMetricSet => s.metricSet
  | CleanupStep.closeMetricsDevice => s.metricsDevice && s.adapter
  | CleanupStep.closeAdapterGroup => s.adapterGroup
  | CleanupStep.closeLibrary => s.libraryHandle

/-- The fixed release order stated in the source. -/
def cleanupOrder : List CleanupStep :=
  [CleanupStep.deactivateMetricSet, CleanupStep.closeMetricsDevice,
   CleanupStep.closeAdapterGroup, CleanupStep.closeLibrary]

/-! ## DisplayGpuUtilization (lines 358-361) -/

/-- DisplayGpuUtilization: the five percentage values of the printed line, in
print order (render, blitter, video, enhance, total). -/
def DisplayGpuUtilization (u : GpuUtilization) : List ℚ :=
  [u.render, u.blitter, u.video, u.enhance, u.total]

/-! ## main (lines 404-476) -/

/-- Observable events of one program run. -/
inductive Event where
  | usageOut
  | unknownArgErr (arg : String)
  | sampleRead
  | printSample
  | readError
  | sleepSecond
  | flagCheck (value : Bool)
  | cleanupCall
deriving DecidableEq, Repr

/-- Test for `-s` / `--snapshot` (line 409). -/
def isSnapshotArg (a : String) : Bool :=
  a == "-s" || a == "--snapshot"

/-- Test for `-h` / `--help` (line 411). -/
def isHelpArg (a : String) : Bool :=
  a == "-h" || a == "--help"

/-- Outcome of the argument-parsing loop. -/
inductive ParseResult where
  | run (snapshot : Bool)
  | helpExit
  | errorExit (arg : String)
deriving DecidableEq, Repr

/-- The argument-parsing loop of main (lines 408-419), scanning left to
right with the current `snapshot_mode` value: `-s`/`--snapshot` sets the
mode and continues, `-h`/`--help` returns 0 immediately, anything else
returns 1 immediately. -/
def parseArgs : List String → Bool → ParseResult
  | [], snap => ParseResult.run snap
  | a :: rest, _ =>
    if isSnapshotArg a then parseArgs rest true
    else if isHelpArg a then ParseResult.helpExit
    else ParseResult.errorExit a

/-- The monitoring do-while loop (lines 452-469) as an event trace.
`readOk` is whether `ReadGpuUtilization` succeeds (fixed by the environment),
`flags` is the sequence of values successive reads of the volatile
`g_running` flag return; an exhausted list embeds a flag that has been
cleared by the signal handler.  Each iteration: read, print (or error +
break), break in snapshot mode, sleep one second, then test the flag. -/
def monitorLoop (snapshot readOk : Bool) (flags : List Bool) : List Event :=
  if !readOk then [Event.sampleRead, Event.readError]
  else if snapshot then [Event.sampleRead, Event.printSample]
  else
    match flags with
    | [] =>
      [Event.sampleRead, Event.printSample, Event.sleepSecond,
       Event.flagCheck false]
    | f :: rest =>
      [Event.sampleRead, Event.printSample, Event.sleepSecond,
       Event.flagCheck f] ++
        if f then monitorLoop snapshot readOk rest else []

/-- Environment of one whole program run: everything the vendor library and
the operating system feed the process. -/
structure MainEnv where
  initEnv : InitEnv
  deviceParams : Option MetricsDeviceParams
  activateResult : TCompletionCode
  timestampResult : TCompletionCode
  deactivateResult : TCompletionCode
  flags : List Bool
deriving DecidableEq, Repr

/-- main (lines 404-476): exit code and event trace.  Argument parsing can
exit before anything is acquired (help → 0, unknown argument → 1, both
without Cleanup); failed initialization and failed metric-set discovery run
Cleanup and exit 1; otherwise the monitoring loop runs with the selected
metric set, Cleanup runs, and the process exits 0. -/
def mainRun (args : List String) (env : MainEnv) : ℕ × List Event :=
  match parseArgs args false with
  | ParseResult.helpExit => (0, [Event.usageOut])
  | ParseResult.errorExit a => (1, [Event.unknownArgErr a, Event.usageOut])
  | ParseResult.run snapshot =>
    match InitializeAPI env.initEnv with
    | none => (1, [Event.cleanupCall])
    | some _ =>
      match FindGpuUtilizationMetricSet env.deviceParams with
      | none => (1, [Event.cleanupCall])
      | some ms =>
        let senv : SamplerEnv :=
          ⟨some ms, env.activateResult, env.timestampResult,
           env.deactivateResult⟩
        (0, monitorLoop snapshot (ReadGpuUtilization senv).isSome env.flags
              ++ [Event.cleanupCall])

/-! ## Spec-side definition for the case-insensitivity claim -/

/-- Fully case-insensitive qualification, written from the spec's words
("after ignoring letter case, the name contains one of the engine keywords
Render / Blitter / Video as a substring and also contains one of the
activity keywords Busy / Util as a substring"); to be compared with the
source-side `metricQualifies`. -/
def metricQualifiesCI (name : String) : Bool :=
  let l := name.data.map Char.toLower
  (infixOfB "render".data l || infixOfB "blitter".data l ||
    infixOfB "video".data l) &&
  (infixOfB "busy".data l || infixOfB "util".data l)

/-! ## Concrete fixtures -/

/-- Metric set whose only metric is named "render_util". -/
def renderUtilSet : MetricSet :=
  ⟨some ⟨[some "render_util"]⟩⟩

/-- Descriptor tree with a single group holding `renderUtilSet`. -/
def renderUtilTree : MetricsDeviceParams :=
  ⟨[some ⟨some ⟨[some renderUtilSet]⟩⟩]⟩

/-- Init environment in which the library load fails at once. -/
def failedLoadInitEnv : InitEnv :=
  ⟨false, TCompletionCode.CC_OK, none, TCompletionCode.CC_OK⟩

/-- Main environment with failing library load and no device. -/
def failedLoadMainEnv : MainEnv :=
  ⟨failedLoadInitEnv, none, TCompletionCode.CC_OK, TCompletionCode.CC_OK,
   TCompletionCode.CC_OK, []⟩

/-- Sampler environment with a selected one-metric set named "RenderBusy"
and all vendor calls succeeding. -/
def renderBusySamplerEnv : SamplerEnv :=
  ⟨some ⟨some ⟨[some "RenderBusy"]⟩⟩, TCompletionCode.CC_OK,
   TCompletionCode.CC_OK, TCompletionCode.CC_OK⟩

/-- Channel invariant maintained by the placeholder assignment loop: each
engine channel is 0 or its placeholder constant, enhance and total stay 0. -/
def chanInv (u : GpuUtilization) : Prop :=
  (u.render = 0 ∨ u.render = 25) ∧ (u.blitter = 0 ∨ u.blitter = 5) ∧
  (u.video = 0 ∨ u.video = 10) ∧ u.enhance = 0 ∧ u.total = 0

/-! # Theorems -/

/-! ## Helper lemmas -/

/-- One step of the placeholder loop preserves the channel invariant. -/
theorem assignStep_chanInv (u : GpuUtilization) (m : MetricSlot)
    (h : chanInv u) : chanInv (assignStep u m) := by
  obtain ⟨hr, hb, hv, he, ht⟩ := h
  cases m with
  | none => exact ⟨hr, hb, hv, he, ht⟩
  | some name =>
    simp only [assignStep]
    split
    · exact ⟨Or.inr rfl, hb, hv, he, ht⟩
    · split
      · exact ⟨hr, Or.inr rfl, hv, he, ht⟩
      · split
        · exact ⟨hr, hb, Or.inr rfl, he, ht⟩
        · exact ⟨hr, hb, hv, he, ht⟩

/-- The whole placeholder loop preserves the channel invariant. -/
theorem foldl_assignStep_chanInv (metrics : List MetricSlot)
    (u : GpuUtilization) (h : chanInv u) :
    chanInv (metrics.foldl assignStep u) := by
  induction metrics generalizing u with
  | nil => exact h
  | cons m rest ih => exact ih _ (assignStep_chanInv u m h)

/-- The placeholder loop output satisfies the channel invariant. -/
theorem classifyAssign_chanInv (metrics : List MetricSlot) :
    chanInv (classifyAssign metrics) :=
  foldl_assignStep_chanInv metrics zeroUtil
    ⟨Or.inl rfl, Or.inl rfl, Or.inl rfl, rfl, rfl⟩

/-- The no-scaling branch of the normalization step: when the raw sum is at
most 100, only the total field is written. -/
theorem normalize_of_le (u : GpuUtilization)
    (h : u.render + u.blitter + u.video + u.enhance ≤ 100) :
    normalize u =
      { u with total := u.render + u.blitter + u.video + u.enhance } := by
  simp only [normalize]
  rw [if_neg (not_lt.mpr h)]

/-- The scaling branch of the normalization step: when the raw sum exceeds
100, every channel is multiplied by 100/sum and total is set to 100. -/
theorem normalize_of_gt (u : GpuUtilization)
    (h : 100 < u.render + u.blitter + u.video + u.enhance) :
    normalize u =
      { render :=
          u.render * (100 / (u.render + u.blitter + u.video + u.enhance))
        blitter :=
          u.blitter * (100 / (u.render + u.blitter + u.video + u.enhance))
        video :=
          u.video * (100 / (u.render + u.blitter + u.video + u.enhance))
        enhance :=
          u.enhance * (100 / (u.render + u.blitter + u.video + u.enhance))
        total := 100 } := by
  simp only [normalize]
  rw [if_pos h]

/-! ## C1 -/

/-- C1: the total field of a normalized sample equals the unscaled sum
render+blitter+video+enhance whenever that sum is at most 100 (channels
unchanged); whenever the raw sum exceeds 100, every one of the four channels
is multiplied by the same factor 100/sum and total is set to exactly 100;
and the concrete raw values {render=70, blitter=20, video=20, enhance=0}
normalize to {63.6, 18.2, 18.2, 0.0} with total 100.0, within one-decimal
rounding tolerance 0.05. -/
theorem c1_total_normalization (u : GpuUtilization) :
    (u.render + u.blitter + u.video + u.enhance ≤ 100 →
      normalize u =
        { u with total := u.render + u.blitter + u.video + u.enhance }) ∧
    (100 < u.render + u.blitter + u.video + u.enhance →
      normalize u =
        { render :=
            u.render * (100 / (u.render + u.blitter + u.video + u.enhance))
          blitter :=
            u.blitter * (100 / (u.render + u.blitter + u.video + u.enhance))
          video :=
            u.video * (100 / (u.render + u.blitter + u.video + u.enhance))
          enhance :=
            u.enhance * (100 / (u.render + u.blitter + u.video + u.enhance))
          total := 100 }) ∧
    ((normalize ⟨70, 20, 20, 0, 0⟩).total = 100 ∧
     |(normalize ⟨70, 20, 20, 0, 0⟩).render - 63.6| ≤ 1 / 20 ∧
     |(normalize ⟨70, 20, 20, 0, 0⟩).blitter - 18.2| ≤ 1 / 20 ∧
     |(normalize ⟨70, 20, 20, 0, 0⟩).video - 18.2| ≤ 1 / 20 ∧
     (normalize ⟨70, 20, 20, 0, 0⟩).enhance = 0) := by
  refine ⟨normalize_of_le u, normalize_of_gt u, ?_⟩
  norm_num [normalize, abs_sub_le_iff]
  constructor <;> (rw [abs_le]; constructor <;> norm_num)

/-- Witness for c1_total_normalization at two concrete samples, one on each
side of the 100% threshold. -/
theorem c1_total_normalization_witness :
    normalize ⟨10, 20, 30, 0, 0⟩ = ⟨10, 20, 30, 0, 60⟩ ∧
    normalize ⟨70, 20, 20, 0, 0⟩ =
      { render := 70 * (100 / (70 + 20 + 20 + 0 : ℚ))
        blitter := 20 * (100 / (70 + 20 + 20 + 0 : ℚ))
        video := 20 * (100 / (70 + 20 + 20 + 0 : ℚ))
        enhance := 0 * (100 / (70 + 20 + 20 + 0 : ℚ))
        total := 100 } := by
  constructor
  · have h := (c1_total_normalization ⟨10, 20, 30, 0, 0⟩).1 (by norm_num)
    have e : (10 : ℚ) + 20 + 30 + 0 = 60 := by norm_num
    rw [e] at h
    exact h
  · have h := (c1_total_normalization ⟨70, 20, 20, 0, 0⟩).2.1 (by norm_num)
    simpa using h

/-! ## C2 -/

/-- C2 counterexample: the name "ReNdEr_Busy" qualifies under the spec's
fully case-insensitive test (ignoring case it contains "render" and "busy"),
but the finder's test rejects it: the code only matches the three literal
casings Render / render / RENDER, so mixed casings do not qualify. -/
theorem c2_counterexample :
    metricQualifiesCI "ReNdEr_Busy" = true ∧
    metricQualifies "ReNdEr_Busy" = false := by
  decide

/-- C2 amended: a metric qualifies iff its name contains one of the nine
literal engine-keyword casings (Render/render/RENDER, Blitter/blitter/
BLITTER, Video/video/VIDEO) as a substring and one of the six literal
activity-keyword casings (Busy/busy/BUSY, Util/util/UTIL) as a substring;
the three uniform casings qualify, but the match is not fully
case-insensitive: mixed casings such as "ReNdEr" do not qualify. -/
theorem c2_amended (name : String) :
    (metricQualifies name =
      ((renderNameMatch name || blitterNameMatch name || videoNameMatch name)
        && activityMatch name)) ∧
    metricQualifies "RenderBusy" = true ∧
    metricQualifies "render_util" = true ∧
    metricQualifies "RENDER_BUSY" = true ∧
    metricQualifies "BlitterBusy" = true ∧
    metricQualifies "VideoUtil" = true ∧
    metricQualifies "ReNdEr_BuSy" = false := by
  refine ⟨?_, by decide, by decide, by decide, by decide, by decide, by decide⟩
  simp [metricQualifies, metricQualifiesRender, metricQualifiesBlitter,
    metricQualifiesVideo, Bool.and_or_distrib_right, Bool.or_assoc]

/-! ## C3 -/

/-- C3 counterexample: with a metric set selected but Activate returning
CC_ERROR_GENERAL, ReadGpuUtilization returns failure, refuting "returns
failure if and only if no metric set is currently selected" and refuting
that activation errors are downgraded to warnings. -/
theorem c3_counterexample :
    ReadGpuUtilization
      ⟨some ⟨some ⟨[]⟩⟩, TCompletionCode.CC_ERROR_GENERAL,
       TCompletionCode.CC_OK, TCompletionCode.CC_OK⟩ = none ∧
    (⟨some ⟨some ⟨[]⟩⟩, TCompletionCode.CC_ERROR_GENERAL,
      TCompletionCode.CC_OK, TCompletionCode.CC_OK⟩ : SamplerEnv).metricSet
      ≠ none := by
  constructor
  · rfl
  · simp

/-- C3 amended: ReadGpuUtilization returns failure iff no metric set is
selected, or Activate returns a code other than CC_OK and
CC_ALREADY_INITIALIZED, or the metric-set parameter query returns NULL;
only the timestamp-query and deactivation errors are downgraded to
non-fatal warnings, with the result of the call independent of those two
completion codes. -/
theorem c3_failure_conditions (env : SamplerEnv) :
    (ReadGpuUtilization env = none ↔
      (env.metricSet = none ∨
       (env.activateResult ≠ TCompletionCode.CC_OK ∧
        env.activateResult ≠ TCompletionCode.CC_ALREADY_INITIALIZED) ∨
       (∃ ms, env.metricSet = some ms ∧ ms.params = none))) ∧
    (∀ ts dc : TCompletionCode,
      ReadGpuUtilization
        { env with timestampResult := ts, deactivateResult := dc } =
      ReadGpuUtilization env) := by
  obtain ⟨oms, act, ts0, dc0⟩ := env
  constructor
  · cases oms with
    | none => simp [ReadGpuUtilization]
    | some ms =>
      cases hp : ms.params with
      | none =>
        by_cases hact : act ≠ TCompletionCode.CC_OK ∧
            act ≠ TCompletionCode.CC_ALREADY_INITIALIZED
        · simp [ReadGpuUtilization, hact, hp]
        · simp [ReadGpuUtilization, hact, hp]
      | some p =>
        by_cases hact : act ≠ TCompletionCode.CC_OK ∧
            act ≠ TCompletionCode.CC_ALREADY_INITIALIZED
        · simp [ReadGpuUtilization, hact, hp]
        · simp [ReadGpuUtilization, hact, hp]
  · intro ts dc
    rfl

/-! ## C5 -/

/-- The flag loop computes, for each of the three flags, the disjunction of
the per-metric tests over all non-NULL slots, or-ed onto the accumulator. -/
theorem foldl_flagStep_eq (metrics : List MetricSlot)
    (acc : Bool × Bool × Bool) :
    metrics.foldl flagStep acc =
      (acc.1 || metrics.any (fun m => m.any metricQualifiesRender),
       acc.2.1 || metrics.any (fun m => m.any metricQualifiesBlitter),
       acc.2.2 || metrics.any (fun m => m.any metricQualifiesVideo)) := by
  induction metrics generalizing acc with
  | nil => simp
  | cons m rest ih =>
    cases m with
    | none => simp [flagStep, ih]
    | some name =>
      simp [flagStep, ih, Bool.or_assoc]

/-- Disjunction of the three per-flag scans collapses to one scan with the
combined per-metric test. -/
theorem any_metricQualifies (metrics : List MetricSlot) :
    (metrics.any (fun m => m.any metricQualifiesRender) ||
     metrics.any (fun m => m.any metricQualifiesBlitter) ||
     metrics.any (fun m => m.any metricQualifiesVideo)) =
      metrics.any (fun m => m.any metricQualifies) := by
  induction metrics with
  | nil => rfl
  | cons m rest ih =>
    cases m with
    | none => simpa [Option.any] using ih
    | some name =>
      simp only [List.any_cons]
      rw [← ih]
      simp only [Option.any, metricQualifies]
      simp [Bool.or_assoc, Bool.or_comm, Bool.or_left_comm]

/-- A set qualifies iff it contains at least one non-NULL metric whose name
passes the per-metric qualification test. -/
theorem setQualifies_iff (metrics : List MetricSlot) :
    setQualifies metrics = true ↔
      ∃ name, some name ∈ metrics ∧ metricQualifies name = true := by
  unfold setQualifies setFlags
  rw [foldl_flagStep_eq]
  simp only [Bool.false_or]
  rw [any_metricQualifies]
  simp only [List.any_eq_true]
  constructor
  · rintro ⟨m, hm, hq⟩
    cases m with
    | none => simp [Option.any] at hq
    | some name =>
      exact ⟨name, hm, by simpa [Option.any] using hq⟩
  · rintro ⟨name, hm, hq⟩
    exact ⟨some name, hm, by simpa [Option.any] using hq⟩

/-- The inner walk over one group's metric sets returns the first non-NULL
set with non-NULL params whose metrics qualify. -/
theorem findInSets_eq (sets : List (Option MetricSet)) :
    findInSets sets = (sets.filterMap id).find? setQualifiesB := by
  induction sets with
  | nil => rfl
  | cons s rest ih =>
    cases s with
    | none => simpa [findInSets] using ih
    | some ms =>
      cases hp : ms.params with
      | none => simp [findInSets, hp, setQualifiesB, List.find?, ih]
      | some p =>
        by_cases hq : setQualifies p.metrics
        · simp [findInSets, hp, hq, setQualifiesB, List.find?]
        · simp [findInSets, hp, hq, setQualifiesB, List.find?, ih]

/-- The outer walk over the concurrent groups returns the first qualifying
set of the whole tree, in traversal order. -/
theorem findInGroups_eq (groups : List (Option ConcurrentGroup)) :
    findInGroups groups = (treeSets groups).find? setQualifiesB := by
  induction groups with
  | nil => rfl
  | cons g rest ih =>
    cases g with
    | none => simpa [findInGroups, treeSets] using ih
    | some cg =>
      cases hp : cg.params with
      | none => simp [findInGroups, treeSets, hp, ih]
      | some gp =>
        have ht : treeSets (some cg :: rest) =
            gp.metricSets.filterMap id ++ treeSets rest := by
          simp [treeSets, hp]
        rw [ht, List.find?_append, ← findInSets_eq, ← ih]
        simp only [findInGroups, hp]
        rcases hfs : findInSets gp.metricSets with _ | ms <;>
          simp [hfs, Option.or]

/-- C5: the finder walks concurrent groups, metric sets and metrics in index
order and selects the first metric set (in that traversal order) containing
at least one qualifying metric — equivalently, its result is `find?` over
the flattened traversal — and it returns failure exactly when no metric set
of any group qualifies.  NULL groups, NULL params and NULL sets are skipped;
a set qualifies iff some non-NULL metric of it passes the qualification
test. -/
theorem c5_first_qualifying_set (groups : List (Option ConcurrentGroup)) :
    (FindGpuUtilizationMetricSet (some ⟨groups⟩) =
      (treeSets groups).find? setQualifiesB) ∧
    (FindGpuUtilizationMetricSet (some ⟨groups⟩) = none ↔
      ∀ ms ∈ treeSets groups, setQualifiesB ms = false) ∧
    (∀ ms : MetricSet, setQualifiesB ms = true ↔
      ∃ p, ms.params = some p ∧
        ∃ name, some name ∈ p.metrics ∧ metricQualifies name = true) ∧
    FindGpuUtilizationMetricSet none = none := by
  refine ⟨findInGroups_eq groups, ?_, ?_, rfl⟩
  · rw [show FindGpuUtilizationMetricSet (some ⟨groups⟩) =
        findInGroups groups from rfl, findInGroups_eq]
    rw [List.find?_eq_none]
    constructor
    · intro h ms hms
      simpa using h ms hms
    · intro h ms hms
      simp [h ms hms]
  · intro ms
    cases hp : ms.params with
    | none => simp [setQualifiesB, hp]
    | some p => simp [setQualifiesB, hp, setQualifies_iff]

/-! ## C6 -/

/-- C6: the adapter scan iterates adapters in index order and selects the
first adapter (NULL handles and NULL params skipped) whose vendor id equals
the fixed Intel constant 0x8086 — its result is `find?` over the non-NULL
adapters — and when no adapter matches, InitializeAPI fails. -/
theorem c6_adapter_selection (adapters : List (Option Adapter))
    (env : InitEnv) :
    (findIntelAdapter adapters =
      (adapters.filterMap id).find?
        (fun a => a.params.any fun p => p.vendorId == intelVendorId)) ∧
    (env.groupAdapters = some adapters → findIntelAdapter adapters = none →
      InitializeAPI env = none) := by
  constructor
  · induction adapters with
    | nil => rfl
    | cons a rest ih =>
      cases a with
      | none =>
        have hfm : (none :: rest).filterMap (@id (Option Adapter)) =
            rest.filterMap id := by simp
        rw [hfm]
        exact ih
      | some ad =>
        have hfm : (some ad :: rest).filterMap (@id (Option Adapter)) =
            ad :: rest.filterMap id := by simp
        rw [hfm]
        cases hp : ad.params with
        | none =>
          rw [List.find?_cons_of_neg _ (by simp [hp, Option.any])]
          simp only [findIntelAdapter, hp]
          exact ih
        | some p =>
          simp only [findIntelAdapter, hp]
          by_cases hv : p.vendorId = intelVendorId
          · rw [if_pos hv,
              List.find?_cons_of_pos _ (by simp [hp, Option.any, hv])]
          · rw [if_neg hv,
              List.find?_cons_of_neg _ (by simp [hp, Option.any, hv])]
            exact ih
  · intro hga hnone
    simp [InitializeAPI, hga, hnone]

/-- Witness for c6_adapter_selection: a single non-Intel adapter (vendor id
0x10de) makes initialization fail. -/
theorem c6_adapter_selection_witness :
    InitializeAPI
      ⟨true, TCompletionCode.CC_OK, some [some ⟨some ⟨0x10de, 0⟩⟩],
       TCompletionCode.CC_OK⟩ = none :=
  (c6_adapter_selection [some ⟨some ⟨0x10de, 0⟩⟩]
    ⟨true, TCompletionCode.CC_OK, some [some ⟨some ⟨0x10de, 0⟩⟩],
     TCompletionCode.CC_OK⟩).2 rfl (by decide)

/-! ## C7 -/

/-- C7: in snapshot mode the loop performs exactly one sample-print cycle
and stops regardless of the running flag; in continuous mode each iteration
is the full cycle sample, print, one-second sleep, and only then the flag
check, so a flag cleared during the pause stops the loop at that next check
while a still-set flag lets it continue. -/
theorem c7_loop_shape (flags rest : List Bool) :
    monitorLoop true true flags = [Event.sampleRead, Event.printSample] ∧
    monitorLoop false true (true :: rest) =
      [Event.sampleRead, Event.printSample, Event.sleepSecond,
       Event.flagCheck true] ++ monitorLoop false true rest ∧
    monitorLoop false true (false :: rest) =
      [Event.sampleRead, Event.printSample, Event.sleepSecond,
       Event.flagCheck false] := by
  refine ⟨?_, rfl, rfl⟩
  cases flags <;> rfl

/-! ## C9 -/

/-- C9: every successful ReadGpuUtilization call yields channel values drawn
from the fixed placeholders — render 0 or 25, blitter 0 or 5, video 0 or 10,
enhance always 0 — so the raw sum never exceeds 40, the greater-than-100
branch of the normalization is never taken, and total equals the plain sum
of the four channels. -/
theorem c9_placeholder_values (env : SamplerEnv) (u : GpuUtilization)
    (h : ReadGpuUtilization env = some u) :
    (u.render = 0 ∨ u.render = 25) ∧ (u.blitter = 0 ∨ u.blitter = 5) ∧
    (u.video = 0 ∨ u.video = 10) ∧ u.enhance = 0 ∧
    u.render + u.blitter + u.video + u.enhance ≤ 40 ∧
    u.total = u.render + u.blitter + u.video + u.enhance := by
  obtain ⟨oms, act, ts, dc⟩ := env
  cases oms with
  | none => simp [ReadGpuUtilization] at h
  | some ms =>
    simp only [ReadGpuUtilization] at h
    split at h
    · exact absurd h (by simp)
    · cases hp : ms.params with
      | none => rw [hp] at h; simp at h
      | some p =>
        rw [hp] at h
        simp only [Option.some.injEq] at h
        obtain ⟨hr, hb, hv, he, ht0⟩ := classifyAssign_chanInv p.metrics
        have hsum : (classifyAssign p.metrics).render +
            (classifyAssign p.metrics).blitter +
            (classifyAssign p.metrics).video +
            (classifyAssign p.metrics).enhance ≤ 40 := by
          rcases hr with h1 | h1 <;> rcases hb with h2 | h2 <;>
            rcases hv with h3 | h3 <;>
            rw [h1, h2, h3, he] <;> norm_num
        have hn := normalize_of_le (classifyAssign p.metrics)
          (le_trans hsum (by norm_num))
        rw [hn] at h
        subst h
        exact ⟨hr, hb, hv, he, hsum, rfl⟩

/-- Concrete evaluation of the sampler on `renderBusySamplerEnv`: the
"RenderBusy" metric is classified to the render channel placeholder 25. -/
theorem read_renderBusySamplerEnv :
    ReadGpuUtilization renderBusySamplerEnv = some ⟨25, 0, 0, 0, 25⟩ := by
  have h1 : strstr "RenderBusy" "Render" = true := by decide
  have h2 : strstr "RenderBusy" "Busy" = true := by decide
  have hca : classifyAssign [some "RenderBusy"] = ⟨25, 0, 0, 0, 0⟩ := by
    simp [classifyAssign, assignStep, zeroUtil, h1, h2]
  have hn : normalize ⟨25, 0, 0, 0, 0⟩ = ⟨25, 0, 0, 0, 25⟩ := by
    rw [normalize_of_le ⟨25, 0, 0, 0, 0⟩ (by norm_num)]
    have hs : (25 : ℚ) + 0 + 0 + 0 = 25 := by norm_num
    rw [hs]
  show (if (TCompletionCode.CC_OK ≠ TCompletionCode.CC_OK ∧
        TCompletionCode.CC_OK ≠ TCompletionCode.CC_ALREADY_INITIALIZED) then
      (none : Option GpuUtilization)
    else some (normalize (classifyAssign [some "RenderBusy"]))) =
    some ⟨25, 0, 0, 0, 25⟩
  rw [if_neg (by simp), hca, hn]

/-- Witness for c9_placeholder_values at the concrete environment whose only
metric is named "RenderBusy". -/
theorem c9_placeholder_values_witness :
    ((25 : ℚ) = 0 ∨ (25 : ℚ) = 25) ∧ ((0 : ℚ) = 0 ∨ (0 : ℚ) = 5) ∧
    ((0 : ℚ) = 0 ∨ (0 : ℚ) = 10) ∧ (0 : ℚ) = 0 ∧
    (25 : ℚ) + 0 + 0 + 0 ≤ 40 ∧ (25 : ℚ) = 25 + 0 + 0 + 0 :=
  c9_placeholder_values renderBusySamplerEnv ⟨25, 0, 0, 0, 25⟩
    read_renderBusySamplerEnv

/-! ## C10 -/

/-- Concrete evaluation of the sampler on the "render_util" set: none of the
exact-case Render/Blitter/Video + Busy tests match, so no channel is
assigned and the sample stays all-zero. -/
theorem read_renderUtilSet :
    ReadGpuUtilization
      ⟨some renderUtilSet, TCompletionCode.CC_OK, TCompletionCode.CC_OK,
       TCompletionCode.CC_OK⟩ = some zeroUtil := by
  have h1 : strstr "render_util" "Render" = false := by decide
  have h2 : strstr "render_util" "Blitter" = false := by decide
  have h3 : strstr "render_util" "Video" = false := by decide
  have hca : classifyAssign [some "render_util"] = zeroUtil := by
    simp [classifyAssign, assignStep, h1, h2, h3]
  have hn : normalize zeroUtil = zeroUtil := by
    rw [normalize_of_le zeroUtil (by norm_num [zeroUtil])]
    have hs : zeroUtil.render + zeroUtil.blitter + zeroUtil.video +
        zeroUtil.enhance = zeroUtil.total := by
      norm_num [zeroUtil]
    rw [hs]
  show (if (TCompletionCode.CC_OK ≠ TCompletionCode.CC_OK ∧
        TCompletionCode.CC_OK ≠ TCompletionCode.CC_ALREADY_INITIALIZED) then
      (none : Option GpuUtilization)
    else some (normalize (classifyAssign [some "render_util"]))) =
    some zeroUtil
  rw [if_neg (by simp), hca, hn]

/-- C10: on the descriptor tree whose only metric is named "render_util",
the finder (which accepts lowercase casings and the Util keyword) selects
the metric set, while the sampler's exact-case Render/Blitter/Video + Busy
classification assigns no channel, so a successful read returns the all-zero
sample and the printed line shows all five values as zero. -/
theorem c10_finder_sampler_mismatch :
    FindGpuUtilizationMetricSet (some renderUtilTree) = some renderUtilSet ∧
    ReadGpuUtilization
      ⟨some renderUtilSet, TCompletionCode.CC_OK, TCompletionCode.CC_OK,
       TCompletionCode.CC_OK⟩ = some zeroUtil ∧
    DisplayGpuUtilization zeroUtil = [0, 0, 0, 0, 0] := by
  refine ⟨by decide, read_renderUtilSet, rfl⟩

/-! ## C4 -/

/-- The monitoring loop never performs a cleanup action itself. -/
theorem cleanupCall_not_mem_monitorLoop (snapshot readOk : Bool)
    (flags : List Bool) :
    Event.cleanupCall ∉ monitorLoop snapshot readOk flags := by
  induction flags with
  | nil =>
    simp only [monitorLoop]
    split
    · simp
    · split
      · simp
      · simp
  | cons f rest ih =>
    simp only [monitorLoop]
    split
    · simp
    · split
      · simp
      · cases f
        · simp
        · simp [ih]

/-- C4 counterexample: the help exit path is an exit path of the program
(it succeeds with exit code 0), yet it performs no cleanup call at all, so
Cleanup is not invoked on every exit path. -/
theorem c4_counterexample :
    (mainRun ["-h"] failedLoadMainEnv).1 = 0 ∧
    (mainRun ["-h"] failedLoadMainEnv).2.count Event.cleanupCall = 0 := by
  constructor <;> rfl

/-- C4 amended: Cleanup performs its release steps at most once each, in the
fixed order deactivate-metric-set, close-metrics-device-via-adapter,
close-adapter-group, close-library (its action list is the fixed order
filtered by the per-step resource guards), each step being a no-op when its
resource is not held; and on every run whose argument parsing proceeds to
monitoring (success, initialization failure, discovery failure, read-error
break, or signal stop), Cleanup is invoked exactly once.  The help and
unknown-argument exits return before anything is acquired and perform no
cleanup. -/
theorem c4_cleanup_order (s : ProgState) (args : List String)
    (env : MainEnv) (snapshot : Bool)
    (hrun : parseArgs args false = ParseResult.run snapshot) :
    ((Cleanup s).1 = cleanupOrder.filter (stepGuard s)) ∧
    (∀ st : CleanupStep, stepGuard s st = false → st ∉ (Cleanup s).1) ∧
    ((mainRun args env).2.count Event.cleanupCall = 1) := by
  have horder : (Cleanup s).1 = cleanupOrder.filter (stepGuard s) := by
    obtain ⟨b1, b2, b3, b4, b5⟩ := s
    cases b1 <;> cases b2 <;> cases b3 <;> cases b4 <;> cases b5 <;> rfl
  refine ⟨horder, ?_, ?_⟩
  · intro st hg
    rw [horder]
    simp [List.mem_filter, hg]
  · simp only [mainRun, hrun]
    cases InitializeAPI env.initEnv with
    | none => rfl
    | some a =>
      cases FindGpuUtilizationMetricSet env.deviceParams with
      | none => rfl
      | some ms =>
        rw [List.count_append]
        rw [List.count_eq_zero.mpr (cleanupCall_not_mem_monitorLoop _ _ _)]
        rfl

/-- Witness for c4_cleanup_order: fully-acquired state, empty argument list,
and the failing-load environment. -/
theorem c4_cleanup_order_witness :
    ((Cleanup ⟨true, true, true, true, true⟩).1 =
      cleanupOrder.filter (stepGuard ⟨true, true, true, true, true⟩)) ∧
    ((mainRun [] failedLoadMainEnv).2.count Event.cleanupCall = 1) := by
  have h := c4_cleanup_order ⟨true, true, true, true, true⟩ []
    failedLoadMainEnv false rfl
  exact ⟨h.1, h.2.2⟩

/-! ## C8 -/

/-- Closed form of the argument-parsing loop: the first argument that is not
`-s`/`--snapshot` decides the outcome; when there is none, the run proceeds
with snapshot mode iff some snapshot argument (or a true initial mode) was
seen. -/
theorem parseArgs_eq (args : List String) (snap : Bool) :
    parseArgs args snap =
      match args.find? (fun a => !isSnapshotArg a) with
      | none => ParseResult.run (snap || args.any isSnapshotArg)
      | some a =>
        if isHelpArg a then ParseResult.helpExit
        else ParseResult.errorExit a := by
  induction args generalizing snap with
  | nil => simp [parseArgs]
  | cons a rest ih =>
    by_cases hs : isSnapshotArg a = true
    · have hstep : parseArgs (a :: rest) snap = parseArgs rest true := by
        simp [parseArgs, hs]
      have hfc : (a :: rest).find? (fun x => !isSnapshotArg x) =
          rest.find? (fun x => !isSnapshotArg x) :=
        List.find?_cons_of_neg _ (by simp [hs])
      rw [hstep, ih, hfc]
      cases hf : rest.find? (fun x => !isSnapshotArg x) with
      | none => simp [List.any_cons, hs]
      | some b => rfl
    · have hb : isSnapshotArg a = false := by
        revert hs
        cases isSnapshotArg a <;> simp
      have hfc : (a :: rest).find? (fun x => !isSnapshotArg x) = some a :=
        List.find?_cons_of_pos _ (by simp [hb])
      rw [hfc]
      by_cases hh : isHelpArg a = true
      · simp [parseArgs, hb, hh]
      · have hhb : isHelpArg a = false := by
          revert hh
          cases isHelpArg a <;> simp
        simp [parseArgs, hb, hhb]

/-- C8 counterexample: the argument list ["-h", "foo"] contains "foo", which
is none of -s, --snapshot, -h, --help, yet the program prints usage and
exits with code 0, because the earlier -h exits first; this refutes "every
argument list containing another argument exits with code 1". -/
theorem c8_counterexample :
    (mainRun ["-h", "foo"] failedLoadMainEnv).1 = 0 ∧
    isSnapshotArg "foo" = false ∧ isHelpArg "foo" = false := by
  refine ⟨rfl, by decide, by decide⟩

/-- C8 amended: arguments are scanned left to right and the first argument
that is not -s or --snapshot decides the run: if no such argument exists the
program proceeds to monitoring (snapshot mode iff a snapshot flag was
given); if it is -h or --help the program prints the usage text and exits with
code 0 regardless of later arguments; otherwise the program prints the
"Unknown argument" message to standard error followed by the usage text and
exits with code 1 regardless of later arguments (including a later -h). -/
theorem c8_argument_handling (args : List String) (env : MainEnv)
    (a : String) :
    (args.find? (fun x => !isSnapshotArg x) = none →
      parseArgs args false = ParseResult.run (args.any isSnapshotArg)) ∧
    (args.find? (fun x => !isSnapshotArg x) = some a → isHelpArg a = true →
      mainRun args env = (0, [Event.usageOut])) ∧
    (args.find? (fun x => !isSnapshotArg x) = some a → isHelpArg a = false →
      mainRun args env = (1, [Event.unknownArgErr a, Event.usageOut])) := by
  refine ⟨fun h => ?_, fun h hh => ?_, fun h hh => ?_⟩
  · rw [parseArgs_eq, h]
    simp
  · simp only [mainRun]
    rw [parseArgs_eq, h]
    simp [hh]
  · simp only [mainRun]
    rw [parseArgs_eq, h]
    simp [hh]

/-- Witness for c8_argument_handling: the single unknown argument "x" exits
with code 1 after the unknown-argument message and the usage text. -/
theorem c8_argument_handling_witness :
    mainRun ["x"] failedLoadMainEnv =
      (1, [Event.unknownArgErr "x", Event.usageOut]) :=
  (c8_argument_handling ["x"] failedLoadMainEnv "x").2.2 (by decide)
    (by decide)

end GpuUsage
